import Mathlib

/-!
Verification of the cellular-automaton cloud engine `CAclouds3D`
(src/Clouds/CAclouds.py) against its specification.

The grid fields `hum`, `act`, `cld` are `uint8` tensors in the source; we
embed them as total functions `Nat → Nat → Nat → Nat` holding the byte
value of each cell, with the bitwise operators `&&&`, `|||` and the 8-bit
complement used by the source.  The probability grids are `int16` tensors
holding basis points; we embed them as `Int`-valued grids.  The elliptical
distance is computed with true division in the source, embedded here over `ℚ`.
-/

/-- A grid of bytes indexed by (x, y, z). -/
def Grid8 : Type := Nat → Nat → Nat → Nat

/-- A grid of 16-bit integers indexed by (x, y, z). -/
def Grid16 : Type := Nat → Nat → Nat → Int

/-- State of a `CAclouds3D` instance: the dimensions fixed at construction,
the three CA fields, and the three probability grids.
`P_hum` is stored by the source as a broadcast scalar after seeding; we keep
it as a (constant) grid, which is how every read observes it. -/
structure CAState where
  width : Nat
  depth : Nat
  height : Nat
  hum : Grid8
  act : Grid8
  cld : Grid8
  P_hum : Grid16
  P_act : Grid16
  P_ext : Grid16

/-- The coordinate grid `self.x` from `torch.meshgrid`: `x[i,j,k] = i`. -/
def gridX : Grid8 := fun i _ _ => i

/-- The coordinate grid `self.y`: `y[i,j,k] = j`. -/
def gridY : Grid8 := fun _ j _ => j

/-- The coordinate grid `self.z`: `z[i,j,k] = k`. -/
def gridZ : Grid8 := fun _ _ k => k

/-- Bitwise complement on a `uint8` value, as `~` acts on the source's
`torch.uint8` tensors. -/
def bnot8 (x : Nat) : Nat := 255 ^^^ (x % 256)

/-- `CAclouds3D.__init__`: store the dimensions and allocate all-zero grids.
The source performs no validation of the dimensions. -/
def CAclouds3D_init (width depth height : Nat) : CAState :=
  { width := width
    depth := depth
    height := height
    hum := fun _ _ _ => 0
    act := fun _ _ _ => 0
    cld := fun _ _ _ => 0
    P_hum := fun _ _ _ => 0
    P_act := fun _ _ _ => 0
    P_ext := fun _ _ _ => 0 }

/-- The aggregated neighbour activation `self.f_act`.  Each
`torch.cat((act[s:], act[:s]), dim)` of the source rolls the tensor so that
cell `i` reads the cell at periodic offset `s` along that axis:
axis 0 offsets −2, −1, +1, +2; axis 1 offsets −2, −1, +1; axis 2 offsets
−2, −1, +1, +2; the eleven samples are combined with bitwise or. -/
def f_act (st : CAState) : Grid8 := fun i j k =>
  st.act ((i + st.width - 2) % st.width) j k |||
  st.act ((i + st.width - 1) % st.width) j k |||
  st.act ((i + 1) % st.width) j k |||
  st.act ((i + 2) % st.width) j k |||
  st.act i ((j + st.depth - 2) % st.depth) k |||
  st.act i ((j + st.depth - 1) % st.depth) k |||
  st.act i ((j + 1) % st.depth) k |||
  st.act i j ((k + st.height - 2) % st.height) |||
  st.act i j ((k + st.height - 1) % st.height) |||
  st.act i j ((k + 1) % st.height) |||
  st.act i j ((k + 2) % st.height)

/-- `CAclouds3D.__cloud_growth__`, following the source's assignment order:
`hum_temp = hum & ~act`; `cld = cld | act`; `f_act` from the (unchanged)
`act`; `act = ~act & hum & f_act` (reading the still-old `hum`);
finally `hum = hum_temp`. -/
def cloud_growth (st : CAState) : CAState :=
  let hum_temp : Grid8 := fun i j k => st.hum i j k &&& bnot8 (st.act i j k)
  let cld1 : Grid8 := fun i j k => st.cld i j k ||| st.act i j k
  let fa : Grid8 := f_act st
  let act1 : Grid8 := fun i j k => bnot8 (st.act i j k) &&& st.hum i j k &&& fa i j k
  { st with hum := hum_temp, act := act1, cld := cld1 }

/-- Byte value of a comparison result, as a boolean tensor promotes when
combined with a `uint8` tensor. -/
def b2n (b : Bool) : Nat := if b then 1 else 0

/-- `CAclouds3D.__cloud_FormationExtinction__` with the three freshly drawn
random grids passed explicitly (the source fills `rnd_hum`, `rnd_act`,
`rnd_ext` with uniform draws from [0, 10000] before any update):
`hum = hum | (rnd_hum < P_hum)`; `act = act | (rnd_act < P_act)`;
`cld = cld & (rnd_ext > P_ext)`. -/
def cloud_FormationExtinction (st : CAState) (rnd_hum rnd_act rnd_ext : Grid16) :
    CAState :=
  { st with
    hum := fun i j k => st.hum i j k ||| b2n (decide (rnd_hum i j k < st.P_hum i j k))
    act := fun i j k => st.act i j k ||| b2n (decide (rnd_act i j k < st.P_act i j k))
    cld := fun i j k => st.cld i j k &&& b2n (decide (st.P_ext i j k < rnd_ext i j k)) }

/-- `CAclouds3D.step`: growth phase then formation/extinction phase. -/
def step (st : CAState) (rnd_hum rnd_act rnd_ext : Grid16) : CAState :=
  cloud_FormationExtinction (cloud_growth st) rnd_hum rnd_act rnd_ext

/-- `CAclouds3D.simulate`, with the random draws of the successive steps
given as a list. -/
def simulate (st : CAState) : List (Grid16 × Grid16 × Grid16) → CAState
  | [] => st
  | r :: rs => simulate (step st r.1 r.2.1 r.2.2) rs

/-- The draws the source produces: `random_(0, 10001)` yields values in
[0, 10000] at every cell. -/
def ValidDraw (r : Grid16) : Prop := ∀ i j k, 0 ≤ r i j k ∧ r i j k ≤ 10000

/-- Clamping of a probability argument into [0, 10000], as the
`if P < 0 / elif P > 10000` blocks of `init_elliptic_probabilities` do. -/
def clampProb (p : Int) : Int := if p < 0 then 0 else if 10000 < p then 10000 else p

/-- Clamping of the centre coordinate `c_x` (lines 82–87 of the source). -/
def clamp_c_x (st : CAState) (c : ℚ) : ℚ :=
  if c < 0 then 0 else if (st.width : ℚ) ≤ c then (st.width : ℚ) - 1 else c

/-- Clamping of the centre coordinate `c_y` (lines 89–94 of the source).
Note that the source's upper test is `c_y >= self.width`, not
`c_y >= self.depth`. -/
def clamp_c_y (st : CAState) (c : ℚ) : ℚ :=
  if c < 0 then 0 else if (st.width : ℚ) ≤ c then (st.depth : ℚ) - 1 else c

/-- Clamping of the centre coordinate `c_z` (lines 96–101 of the source).
Note that the source's upper test is `c_z >= self.width`, not
`c_z >= self.height`. -/
def clamp_c_z (st : CAState) (c : ℚ) : ℚ :=
  if c < 0 then 0 else if (st.width : ℚ) ≤ c then (st.height : ℚ) - 1 else c

/-- Clamping of a stretch factor: non-positive values are replaced by 1. -/
def clampStretch (f : ℚ) : ℚ := if f ≤ 0 then 1 else f

/-- Clamping of the overlap: negative values are replaced by 0. -/
def clampOverlap (ov : ℚ) : ℚ := if ov < 0 then 0 else ov

/-- The per-cell elliptical distance
`(x−c_x)²/f_x + (y−c_y)²/f_y + (z−c_z)²/f_z` evaluated on the coordinate
grids (the arguments are the already-clamped parameters). -/
def ellipticDistance (cx cy cz fx fy fz : ℚ) : Nat → Nat → Nat → ℚ :=
  fun i j k =>
    ((gridX i j k : ℚ) - cx) ^ 2 / fx + ((gridY i j k : ℚ) - cy) ^ 2 / fy +
      ((gridZ i j k : ℚ) - cz) ^ 2 / fz

/-- The distance grid `init_elliptic_probabilities` builds after clamping its
arguments. -/
def clampedDistance (st : CAState) (c_x c_y c_z f_x f_y f_z : ℚ) :
    Nat → Nat → Nat → ℚ :=
  ellipticDistance (clamp_c_x st c_x) (clamp_c_y st c_y) (clamp_c_z st c_z)
    (clampStretch f_x) (clampStretch f_y) (clampStretch f_z)

/-- `sel_inner`: cells with distance at most `radius + overlap`. -/
def sel_inner (st : CAState) (c_x c_y c_z f_x f_y f_z radius overlap : ℚ)
    (i j k : Nat) : Prop :=
  clampedDistance st c_x c_y c_z f_x f_y f_z i j k ≤ radius + clampOverlap overlap

/-- `sel_outer`: cells with distance greater than `radius − overlap`. -/
def sel_outer (st : CAState) (c_x c_y c_z f_x f_y f_z radius overlap : ℚ)
    (i j k : Nat) : Prop :=
  radius - clampOverlap overlap < clampedDistance st c_x c_y c_z f_x f_y f_z i j k

instance (st : CAState) (c_x c_y c_z f_x f_y f_z radius overlap : ℚ)
    (i j k : Nat) :
    Decidable (sel_inner st c_x c_y c_z f_x f_y f_z radius overlap i j k) := by
  unfold sel_inner; infer_instance

instance (st : CAState) (c_x c_y c_z f_x f_y f_z radius overlap : ℚ)
    (i j k : Nat) :
    Decidable (sel_outer st c_x c_y c_z f_x f_y f_z radius overlap i j k) := by
  unfold sel_outer; infer_instance

/-- `CAclouds3D.init_elliptic_probabilities`: clamp every argument, build the
inner and outer elliptical masks, assign `P_hum` as a grid-wide scalar
(every read observes the broadcast constant), and overwrite `P_act` inside
the inner mask and `P_ext` inside the outer mask, leaving other cells
untouched. -/
def init_elliptic_probabilities (st : CAState)
    (c_x c_y c_z f_x f_y f_z : ℚ) (P_hum0 P_act0 P_ext0 : Int)
    (radius overlap : ℚ) : CAState :=
  { st with
    P_hum := fun _ _ _ => clampProb P_hum0
    P_act := fun i j k =>
      if sel_inner st c_x c_y c_z f_x f_y f_z radius overlap i j k then
        clampProb P_act0
      else st.P_act i j k
    P_ext := fun i j k =>
      if sel_outer st c_x c_y c_z f_x f_y f_z radius overlap i j k then
        clampProb P_ext0
      else st.P_ext i j k }

/-- Row-major (construction-order) enumeration of all cell indices, the
flatten order `reshape(1, -1)` uses. -/
def allTriples (w d h : Nat) : List (Nat × Nat × Nat) :=
  (List.range w).flatMap fun i =>
    (List.range d).flatMap fun j =>
      (List.range h).map fun k => (i, j, k)

/-- `CAclouds3D.get_cloud_positions`: flatten the cloud grid in construction
order, keep the cells whose value equals 1, and read the coordinate grids at
those indices, producing the list of (x, y, z) rows. -/
def get_cloud_positions (st : CAState) : List (Nat × Nat × Nat) :=
  (allTriples st.width st.depth st.height).filterMap fun t =>
    if st.cld t.1 t.2.1 t.2.2 = 1 then
      some (gridX t.1 t.2.1 t.2.2, gridY t.1 t.2.1 t.2.2, gridZ t.1 t.2.1 t.2.2)
    else none

/-! ## Binary values and bitwise-operation lemmas -/

/-- A grid whose cells are all 0 or 1. -/
def BinaryGrid (g : Grid8) : Prop := ∀ i j k, g i j k = 0 ∨ g i j k = 1

/-- A state whose three CA fields are binary. -/
def BinaryState (st : CAState) : Prop :=
  BinaryGrid st.hum ∧ BinaryGrid st.act ∧ BinaryGrid st.cld

theorem lor_binary {a b : Nat} (ha : a = 0 ∨ a = 1) (hb : b = 0 ∨ b = 1) :
    a ||| b = 0 ∨ a ||| b = 1 := by
  rcases ha with h | h <;> rcases hb with h' | h' <;> subst h <;> subst h' <;> decide

theorem lor_eq_one_iff {a b : Nat} (ha : a = 0 ∨ a = 1) (hb : b = 0 ∨ b = 1) :
    a ||| b = 1 ↔ (a = 1 ∨ b = 1) := by
  rcases ha with h | h <;> rcases hb with h' | h' <;> subst h <;> subst h' <;> decide

theorem land_bnot8_eq {x a : Nat} (hx : x = 0 ∨ x = 1) (ha : a = 0 ∨ a = 1) :
    x &&& bnot8 a = if a = 1 then 0 else x := by
  rcases hx with h | h <;> rcases ha with h' | h' <;> subst h <;> subst h' <;> decide

theorem act_formula_eq {a h f : Nat} (ha : a = 0 ∨ a = 1) (hh : h = 0 ∨ h = 1)
    (hf : f = 0 ∨ f = 1) :
    bnot8 a &&& h &&& f = if a = 0 ∧ h = 1 ∧ f = 1 then 1 else 0 := by
  rcases ha with h1 | h1 <;> rcases hh with h2 | h2 <;> rcases hf with h3 | h3 <;>
    subst h1 <;> subst h2 <;> subst h3 <;> decide

theorem land_b2n_binary (a : Nat) (b : Bool) (ha : a = 0 ∨ a = 1) :
    a &&& b2n b = 0 ∨ a &&& b2n b = 1 := by
  rcases ha with h | h <;> subst h <;> cases b <;> simp [b2n]

theorem land_b2n_eq_one_iff {a : Nat} (b : Bool) (ha : a = 0 ∨ a = 1) :
    a &&& b2n b = 1 ↔ (a = 1 ∧ b = true) := by
  rcases ha with h | h <;> subst h <;> cases b <;> simp [b2n]

theorem lor_b2n_binary (a : Nat) (b : Bool) (ha : a = 0 ∨ a = 1) :
    a ||| b2n b = 0 ∨ a ||| b2n b = 1 := by
  rcases ha with h | h <;> subst h <;> cases b <;> simp [b2n]

theorem lor_b2n_eq_one_iff {a : Nat} (b : Bool) (ha : a = 0 ∨ a = 1) :
    a ||| b2n b = 1 ↔ (a = 1 ∨ b = true) := by
  rcases ha with h | h <;> subst h <;> cases b <;> simp [b2n]

/-- The eleven-sample aggregate is binary on a binary activation field. -/
theorem f_act_binary (st : CAState) (hb : BinaryGrid st.act) (i j k : Nat) :
    f_act st i j k = 0 ∨ f_act st i j k = 1 := by
  unfold f_act
  exact lor_binary (lor_binary (lor_binary (lor_binary (lor_binary (lor_binary
    (lor_binary (lor_binary (lor_binary (lor_binary (hb _ _ _) (hb _ _ _))
      (hb _ _ _)) (hb _ _ _)) (hb _ _ _)) (hb _ _ _)) (hb _ _ _)) (hb _ _ _))
        (hb _ _ _)) (hb _ _ _)) (hb _ _ _)

/-- The aggregate is 1 exactly when one of the eleven sampled cells is 1. -/
theorem f_act_eq_one_iff (st : CAState) (hb : BinaryGrid st.act) (i j k : Nat) :
    f_act st i j k = 1 ↔
      (st.act ((i + st.width - 2) % st.width) j k = 1 ∨
       st.act ((i + st.width - 1) % st.width) j k = 1 ∨
       st.act ((i + 1) % st.width) j k = 1 ∨
       st.act ((i + 2) % st.width) j k = 1 ∨
       st.act i ((j + st.depth - 2) % st.depth) k = 1 ∨
       st.act i ((j + st.depth - 1) % st.depth) k = 1 ∨
       st.act i ((j + 1) % st.depth) k = 1 ∨
       st.act i j ((k + st.height - 2) % st.height) = 1 ∨
       st.act i j ((k + st.height - 1) % st.height) = 1 ∨
       st.act i j ((k + 1) % st.height) = 1 ∨
       st.act i j ((k + 2) % st.height) = 1) := by
  unfold f_act
  have b2 := lor_binary (hb ((i + st.width - 2) % st.width) j k)
    (hb ((i + st.width - 1) % st.width) j k)
  have b3 := lor_binary b2 (hb ((i + 1) % st.width) j k)
  have b4 := lor_binary b3 (hb ((i + 2) % st.width) j k)
  have b5 := lor_binary b4 (hb i ((j + st.depth - 2) % st.depth) k)
  have b6 := lor_binary b5 (hb i ((j + st.depth - 1) % st.depth) k)
  have b7 := lor_binary b6 (hb i ((j + 1) % st.depth) k)
  have b8 := lor_binary b7 (hb i j ((k + st.height - 2) % st.height))
  have b9 := lor_binary b8 (hb i j ((k + st.height - 1) % st.height))
  have b10 := lor_binary b9 (hb i j ((k + 1) % st.height))
  rw [lor_eq_one_iff b10 (hb i j ((k + 2) % st.height)),
    lor_eq_one_iff b9 (hb i j ((k + 1) % st.height)),
    lor_eq_one_iff b8 (hb i j ((k + st.height - 1) % st.height)),
    lor_eq_one_iff b7 (hb i j ((k + st.height - 2) % st.height)),
    lor_eq_one_iff b6 (hb i ((j + 1) % st.depth) k),
    lor_eq_one_iff b5 (hb i ((j + st.depth - 1) % st.depth) k),
    lor_eq_one_iff b4 (hb i ((j + st.depth - 2) % st.depth) k),
    lor_eq_one_iff b3 (hb ((i + 2) % st.width) j k),
    lor_eq_one_iff b2 (hb ((i + 1) % st.width) j k),
    lor_eq_one_iff (hb _ _ _) (hb ((i + st.width - 1) % st.width) j k)]
  simp only [or_assoc]

/-! ## Spec-side (simultaneous) growth phase

These definitions follow the specification's wording: boolean fields read
through `= 1`, the eleven offsets given as signed integers, and index
arithmetic modulo the axis length. -/

/-- Index arithmetic modulo the axis length, as the spec words it:
`(i + o) mod n` over the integers. -/
def wrapIdx (n i : Nat) (o : Int) : Nat := (((i : Int) + o) % (n : Int)).toNat

/-- The eleven periodic offsets of the specification: axis 1 offsets
{−2, −1, +1, +2}, axis 2 offsets {−2, −1, +1}, axis 3 offsets
{−2, −1, +1, +2}. -/
def specOffsets : List (Int × Int × Int) :=
  [(-2, 0, 0), (-1, 0, 0), (1, 0, 0), (2, 0, 0),
   (0, -2, 0), (0, -1, 0), (0, 1, 0),
   (0, 0, -2), (0, 0, -1), (0, 0, 1), (0, 0, 2)]

/-- `neighborActivation(i,j,k)` of the spec: the logical or of the pre-step
activation sampled at the eleven periodic offsets. -/
def specNbrAct (st : CAState) (i j k : Nat) : Bool :=
  specOffsets.any fun o =>
    st.act (wrapIdx st.width i o.1) (wrapIdx st.depth j o.2.1)
      (wrapIdx st.height k o.2.2) == 1

/-- Phase 1 as the spec words it: all three new fields computed from the
pre-step snapshot and committed simultaneously. -/
def growthSpec (st : CAState) : CAState :=
  { st with
    cld := fun i j k => if st.cld i j k == 1 || st.act i j k == 1 then 1 else 0
    act := fun i j k =>
      if !(st.act i j k == 1) && (st.hum i j k == 1) && specNbrAct st i j k
      then 1 else 0
    hum := fun i j k => if (st.hum i j k == 1) && !(st.act i j k == 1) then 1 else 0 }

/-! ## Modular index arithmetic lemmas -/

theorem natCast_emod_toNat (a n : Nat) : (((a : Int) % (n : Int)).toNat) = a % n := by
  rw [← Int.natCast_mod, Int.toNat_natCast]

theorem wrapIdx_pos (n i c : Nat) : wrapIdx n i (c : Int) = (i + c) % n := by
  unfold wrapIdx
  rw [show ((i : Int) + (c : Int)) = ((i + c : Nat) : Int) by push_cast; ring]
  exact natCast_emod_toNat _ _

theorem wrapIdx_neg (n i c : Nat) (hn : 0 < n) (hc : c ≤ 2) :
    wrapIdx n i (-(c : Int)) = (i + n - c) % n := by
  unfold wrapIdx
  by_cases hcn : c ≤ n
  · have hle : c ≤ i + n := le_trans hcn (Nat.le_add_left _ _)
    rw [show (i : Int) + -(c : Int) = ((i + n - c : Nat) : Int) + (n : Int) * (-1) by
      push_cast [hle]; ring]
    rw [Int.add_mul_emod_self_left, natCast_emod_toNat]
  · have hn1 : n = 1 := by omega
    subst hn1
    simp [Int.emod_one, Nat.mod_one]

theorem wrapIdx_zero (n i : Nat) : wrapIdx n i 0 = i % n := by
  simpa using wrapIdx_pos n i 0

theorem wrapIdx_one (n i : Nat) : wrapIdx n i 1 = (i + 1) % n := by
  simpa using wrapIdx_pos n i 1

theorem wrapIdx_two (n i : Nat) : wrapIdx n i 2 = (i + 2) % n := by
  simpa using wrapIdx_pos n i 2

theorem wrapIdx_neg_one (n i : Nat) (hn : 0 < n) :
    wrapIdx n i (-1) = (i + n - 1) % n := by
  simpa using wrapIdx_neg n i 1 hn (by norm_num)

theorem wrapIdx_neg_two (n i : Nat) (hn : 0 < n) :
    wrapIdx n i (-2) = (i + n - 2) % n := by
  simpa using wrapIdx_neg n i 2 hn (by norm_num)

/-- The spec's eleven-offset neighbour activation holds exactly when one of
the eleven cells sampled by the source's rolled tensors is 1. -/
theorem specNbrAct_eq_true_iff (st : CAState) (i j k : Nat)
    (hi : i < st.width) (hj : j < st.depth) (hk : k < st.height) :
    specNbrAct st i j k = true ↔
      (st.act ((i + st.width - 2) % st.width) j k = 1 ∨
       st.act ((i + st.width - 1) % st.width) j k = 1 ∨
       st.act ((i + 1) % st.width) j k = 1 ∨
       st.act ((i + 2) % st.width) j k = 1 ∨
       st.act i ((j + st.depth - 2) % st.depth) k = 1 ∨
       st.act i ((j + st.depth - 1) % st.depth) k = 1 ∨
       st.act i ((j + 1) % st.depth) k = 1 ∨
       st.act i j ((k + st.height - 2) % st.height) = 1 ∨
       st.act i j ((k + st.height - 1) % st.height) = 1 ∨
       st.act i j ((k + 1) % st.height) = 1 ∨
       st.act i j ((k + 2) % st.height) = 1) := by
  have hw : 0 < st.width := lt_of_le_of_lt (Nat.zero_le i) hi
  have hd : 0 < st.depth := lt_of_le_of_lt (Nat.zero_le j) hj
  have hh : 0 < st.height := lt_of_le_of_lt (Nat.zero_le k) hk
  unfold specNbrAct specOffsets
  simp only [List.any_cons, List.any_nil, Bool.or_false, Bool.or_eq_true,
    beq_iff_eq]
  rw [wrapIdx_zero, wrapIdx_zero, wrapIdx_zero, wrapIdx_one, wrapIdx_one,
    wrapIdx_one, wrapIdx_two, wrapIdx_two, wrapIdx_neg_one _ _ hw,
    wrapIdx_neg_one _ _ hd, wrapIdx_neg_one _ _ hh, wrapIdx_neg_two _ _ hw,
    wrapIdx_neg_two _ _ hd, wrapIdx_neg_two _ _ hh,
    Nat.mod_eq_of_lt hi, Nat.mod_eq_of_lt hj, Nat.mod_eq_of_lt hk]

/-! ## Pointwise characterization of the two phases -/

theorem cloud_growth_hum (st : CAState) (i j k : Nat) :
    (cloud_growth st).hum i j k = st.hum i j k &&& bnot8 (st.act i j k) := rfl

theorem cloud_growth_act (st : CAState) (i j k : Nat) :
    (cloud_growth st).act i j k =
      bnot8 (st.act i j k) &&& st.hum i j k &&& f_act st i j k := rfl

theorem cloud_growth_cld (st : CAState) (i j k : Nat) :
    (cloud_growth st).cld i j k = st.cld i j k ||| st.act i j k := rfl

theorem cloud_growth_dims (st : CAState) :
    (cloud_growth st).width = st.width ∧ (cloud_growth st).depth = st.depth ∧
      (cloud_growth st).height = st.height := ⟨rfl, rfl, rfl⟩

theorem cloud_FE_hum (st : CAState) (rh ra re : Grid16) (i j k : Nat) :
    (cloud_FormationExtinction st rh ra re).hum i j k =
      st.hum i j k ||| b2n (decide (rh i j k < st.P_hum i j k)) := rfl

theorem cloud_FE_act (st : CAState) (rh ra re : Grid16) (i j k : Nat) :
    (cloud_FormationExtinction st rh ra re).act i j k =
      st.act i j k ||| b2n (decide (ra i j k < st.P_act i j k)) := rfl

theorem cloud_FE_cld (st : CAState) (rh ra re : Grid16) (i j k : Nat) :
    (cloud_FormationExtinction st rh ra re).cld i j k =
      st.cld i j k &&& b2n (decide (st.P_ext i j k < re i j k)) := rfl

/-- The growth phase keeps all three fields binary. -/
theorem growth_preserves_binary (st : CAState) (hb : BinaryState st) :
    BinaryState (cloud_growth st) := by
  obtain ⟨bh, ba, bc⟩ := hb
  refine ⟨fun i j k => ?_, fun i j k => ?_, fun i j k => ?_⟩
  · rw [cloud_growth_hum, land_bnot8_eq (bh i j k) (ba i j k)]
    split
    · exact Or.inl rfl
    · exact bh i j k
  · rw [cloud_growth_act,
      act_formula_eq (ba i j k) (bh i j k) (f_act_binary st ba i j k)]
    split
    · exact Or.inr rfl
    · exact Or.inl rfl
  · rw [cloud_growth_cld]
    exact lor_binary (bc i j k) (ba i j k)

/-- The formation/extinction phase keeps all three fields binary. -/
theorem FE_preserves_binary (st : CAState) (rh ra re : Grid16)
    (hb : BinaryState st) :
    BinaryState (cloud_FormationExtinction st rh ra re) := by
  obtain ⟨bh, ba, bc⟩ := hb
  refine ⟨fun i j k => ?_, fun i j k => ?_, fun i j k => ?_⟩
  · rw [cloud_FE_hum]; exact lor_b2n_binary _ _ (bh i j k)
  · rw [cloud_FE_act]; exact lor_b2n_binary _ _ (ba i j k)
  · rw [cloud_FE_cld]; exact land_b2n_binary _ _ (bc i j k)

/-- `step` keeps all three fields binary. -/
theorem step_preserves_binary (st : CAState) (rh ra re : Grid16)
    (hb : BinaryState st) : BinaryState (step st rh ra re) :=
  FE_preserves_binary _ _ _ _ (growth_preserves_binary st hb)

/-- C1 helper: on binary states the sequential growth phase agrees with the
simultaneous specification, cell by cell. -/
theorem growth_agrees_with_spec (st : CAState) (hb : BinaryState st)
    (i j k : Nat) (hi : i < st.width) (hj : j < st.depth) (hk : k < st.height) :
    (cloud_growth st).cld i j k = (growthSpec st).cld i j k ∧
    (cloud_growth st).act i j k = (growthSpec st).act i j k ∧
    (cloud_growth st).hum i j k = (growthSpec st).hum i j k := by
  obtain ⟨bh, ba, bc⟩ := hb
  have hs : specNbrAct st i j k = true ↔ f_act st i j k = 1 :=
    (specNbrAct_eq_true_iff st i j k hi hj hk).trans
      (f_act_eq_one_iff st ba i j k).symm
  refine ⟨?_, ?_, ?_⟩
  · rw [cloud_growth_cld,
      show (growthSpec st).cld i j k =
        if st.cld i j k == 1 || st.act i j k == 1 then 1 else 0 from rfl]
    rcases bc i j k with h1 | h1 <;> rcases ba i j k with h2 | h2 <;>
      rw [h1, h2] <;> decide
  · rw [cloud_growth_act,
      act_formula_eq (ba i j k) (bh i j k) (f_act_binary st ba i j k),
      show (growthSpec st).act i j k =
        if !(st.act i j k == 1) && (st.hum i j k == 1) && specNbrAct st i j k
        then 1 else 0 from rfl]
    rcases f_act_binary st ba i j k with h4 | h4
    · have h5 : specNbrAct st i j k = false := by
        cases hb5 : specNbrAct st i j k
        · rfl
        · have := hs.mp hb5; omega
      rw [h4, h5]
      rcases ba i j k with h2 | h2 <;> rcases bh i j k with h3 | h3 <;>
        rw [h2, h3] <;> decide
    · have h5 : specNbrAct st i j k = true := hs.mpr h4
      rw [h4, h5]
      rcases ba i j k with h2 | h2 <;> rcases bh i j k with h3 | h3 <;>
        rw [h2, h3] <;> decide
  · rw [cloud_growth_hum, land_bnot8_eq (bh i j k) (ba i j k),
      show (growthSpec st).hum i j k =
        if (st.hum i j k == 1) && !(st.act i j k == 1) then 1 else 0 from rfl]
    rcases bh i j k with h1 | h1 <;> rcases ba i j k with h2 | h2 <;>
      rw [h1, h2] <;> decide

theorem land_bnot8_eq_one_iff {x a : Nat} (hx : x = 0 ∨ x = 1) (ha : a = 0 ∨ a = 1) :
    x &&& bnot8 a = 1 ↔ (x = 1 ∧ a = 0) := by
  rcases hx with h | h <;> rcases ha with h' | h' <;> subst h <;> subst h' <;> decide

theorem act_formula_eq_one_iff {a h f : Nat} (ha : a = 0 ∨ a = 1)
    (hh : h = 0 ∨ h = 1) (hf : f = 0 ∨ f = 1) :
    bnot8 a &&& h &&& f = 1 ↔ (a = 0 ∧ h = 1 ∧ f = 1) := by
  rcases ha with h1 | h1 <;> rcases hh with h2 | h2 <;> rcases hf with h3 | h3 <;>
    subst h1 <;> subst h2 <;> subst h3 <;> decide

/-- C1: Phase 1 of `step()` computes, from the pre-step snapshot A0, H0, C0
only: C = C0 OR A0; A = (NOT A0) AND H0 AND the OR of A0 sampled at the
eleven periodic offsets (axis 1: {−2,−1,+1,+2}; axis 2: {−2,−1,+1};
axis 3: {−2,−1,+1,+2}), indices taken modulo the axis length; and
H = H0 AND (NOT A0); and the sequential implementation agrees cell by cell
with `growthSpec`, which commits all three fields together from the
snapshot, so no partially updated field is read during the phase. -/
theorem claim_C1 (st : CAState) (hb : BinaryState st) (i j k : Nat)
    (hi : i < st.width) (hj : j < st.depth) (hk : k < st.height) :
    ((cloud_growth st).cld i j k = 1 ↔ (st.cld i j k = 1 ∨ st.act i j k = 1)) ∧
    ((cloud_growth st).act i j k = 1 ↔
      (st.act i j k = 0 ∧ st.hum i j k = 1 ∧ specNbrAct st i j k = true)) ∧
    ((cloud_growth st).hum i j k = 1 ↔ (st.hum i j k = 1 ∧ st.act i j k = 0)) ∧
    (cloud_growth st).cld i j k = (growthSpec st).cld i j k ∧
    (cloud_growth st).act i j k = (growthSpec st).act i j k ∧
    (cloud_growth st).hum i j k = (growthSpec st).hum i j k := by
  obtain ⟨bh, ba, bc⟩ := hb
  have hs : specNbrAct st i j k = true ↔ f_act st i j k = 1 :=
    (specNbrAct_eq_true_iff st i j k hi hj hk).trans
      (f_act_eq_one_iff st ba i j k).symm
  refine ⟨?_, ?_, ?_, growth_agrees_with_spec st ⟨bh, ba, bc⟩ i j k hi hj hk⟩
  · rw [cloud_growth_cld]
    exact lor_eq_one_iff (bc i j k) (ba i j k)
  · rw [cloud_growth_act,
      act_formula_eq_one_iff (ba i j k) (bh i j k) (f_act_binary st ba i j k), hs]
  · rw [cloud_growth_hum]
    exact land_bnot8_eq_one_iff (bh i j k) (ba i j k)

/-- A concrete 3×3×3 state: humidity everywhere, one active cell at the
origin, no cloud, all probabilities zero. -/
def w1State : CAState :=
  { width := 3
    depth := 3
    height := 3
    hum := fun _ _ _ => 1
    act := fun i j k => if i = 0 ∧ j = 0 ∧ k = 0 then 1 else 0
    cld := fun _ _ _ => 0
    P_hum := fun _ _ _ => 0
    P_act := fun _ _ _ => 0
    P_ext := fun _ _ _ => 0 }

theorem w1State_binary : BinaryState w1State := by
  refine ⟨fun _ _ _ => Or.inr rfl, fun i j k => ?_, fun _ _ _ => Or.inl rfl⟩
  show (if i = 0 ∧ j = 0 ∧ k = 0 then 1 else 0) = 0 ∨
    (if i = 0 ∧ j = 0 ∧ k = 0 then (1 : Nat) else 0) = 1
  split
  · exact Or.inr rfl
  · exact Or.inl rfl

/-- Witness for C1 at the concrete state `w1State` and cell (1, 0, 0). -/
theorem claim_C1_witness :
    ((cloud_growth w1State).cld 1 0 0 = 1 ↔
      (w1State.cld 1 0 0 = 1 ∨ w1State.act 1 0 0 = 1)) ∧
    ((cloud_growth w1State).act 1 0 0 = 1 ↔
      (w1State.act 1 0 0 = 0 ∧ w1State.hum 1 0 0 = 1 ∧
        specNbrAct w1State 1 0 0 = true)) ∧
    ((cloud_growth w1State).hum 1 0 0 = 1 ↔
      (w1State.hum 1 0 0 = 1 ∧ w1State.act 1 0 0 = 0)) ∧
    (cloud_growth w1State).cld 1 0 0 = (growthSpec w1State).cld 1 0 0 ∧
    (cloud_growth w1State).act 1 0 0 = (growthSpec w1State).act 1 0 0 ∧
    (cloud_growth w1State).hum 1 0 0 = (growthSpec w1State).hum 1 0 0 :=
  claim_C1 w1State w1State_binary 1 0 0 (by decide) (by decide) (by decide)

/-- Constant draw grid used for concrete witnesses. -/
def draw5000 : Grid16 := fun _ _ _ => 5000

theorem draw5000_valid : ValidDraw draw5000 :=
  fun _ _ _ => show (0 : Int) ≤ 5000 ∧ (5000 : Int) ≤ 10000 by decide

/-- C2: Phase 2 of `step()` updates the Phase-1-committed fields as
H ← H OR (R_hum < P_hum), A ← A OR (R_act < P_act) and
C ← C AND (R_ext > P_ext), the three draws being fixed before any update is
applied; a cloud cell survives only if its draw strictly exceeds its
extinction threshold. -/
theorem claim_C2 (st : CAState) (hb : BinaryState st) (rh ra re : Grid16)
    (i j k : Nat) :
    ((step st rh ra re).hum i j k =
      (cloud_growth st).hum i j k ||| b2n (decide (rh i j k < st.P_hum i j k))) ∧
    ((step st rh ra re).act i j k =
      (cloud_growth st).act i j k ||| b2n (decide (ra i j k < st.P_act i j k))) ∧
    ((step st rh ra re).cld i j k =
      (cloud_growth st).cld i j k &&& b2n (decide (st.P_ext i j k < re i j k))) ∧
    ((step st rh ra re).cld i j k = 1 ↔
      ((cloud_growth st).cld i j k = 1 ∧ st.P_ext i j k < re i j k)) := by
  have hg := growth_preserves_binary st hb
  refine ⟨rfl, rfl, rfl, ?_⟩
  rw [show (step st rh ra re).cld i j k =
    (cloud_growth st).cld i j k &&& b2n (decide (st.P_ext i j k < re i j k)) from rfl,
    land_b2n_eq_one_iff _ (hg.2.2 i j k)]
  simp

/-- Witness for C2 at `w1State`, uniform draws of 5000, cell (0, 0, 0). -/
theorem claim_C2_witness :
    ((step w1State draw5000 draw5000 draw5000).hum 0 0 0 =
      (cloud_growth w1State).hum 0 0 0 |||
        b2n (decide (draw5000 0 0 0 < w1State.P_hum 0 0 0))) ∧
    ((step w1State draw5000 draw5000 draw5000).act 0 0 0 =
      (cloud_growth w1State).act 0 0 0 |||
        b2n (decide (draw5000 0 0 0 < w1State.P_act 0 0 0))) ∧
    ((step w1State draw5000 draw5000 draw5000).cld 0 0 0 =
      (cloud_growth w1State).cld 0 0 0 &&&
        b2n (decide (w1State.P_ext 0 0 0 < draw5000 0 0 0))) ∧
    ((step w1State draw5000 draw5000 draw5000).cld 0 0 0 = 1 ↔
      ((cloud_growth w1State).cld 0 0 0 = 1 ∧
        w1State.P_ext 0 0 0 < draw5000 0 0 0)) :=
  claim_C2 w1State w1State_binary draw5000 draw5000 draw5000 0 0 0

/-- A 1×1×1 state with a cloud cell, no activation, and extinction
probability 10000. -/
def c3State : CAState :=
  { width := 1
    depth := 1
    height := 1
    hum := fun _ _ _ => 0
    act := fun _ _ _ => 0
    cld := fun _ _ _ => 1
    P_hum := fun _ _ _ => 0
    P_act := fun _ _ _ => 0
    P_ext := fun _ _ _ => 10000 }

/-- C3 counterexample: with P_ext = 10000 everywhere and A all false, a set
cloud cell does not survive `step()` — the survival condition
`R_ext > 10000` can never hold, so C is cleared, not left unchanged. -/
theorem claim_C3_cex :
    c3State.cld 0 0 0 = 1 ∧ c3State.act 0 0 0 = 0 ∧
    c3State.P_ext 0 0 0 = 10000 ∧ draw5000 0 0 0 ≤ 10000 ∧
    (step c3State draw5000 draw5000 draw5000).cld 0 0 0 = 0 := by decide

/-- C3 amended: with P_ext = 10000 at every cell, `step()` clears C entirely
(no draw in [0, 10000] strictly exceeds 10000); with P_ext = 0 at every cell
and C all true, `step()` leaves C set exactly at the cells whose extinction
draw is non-zero, clearing only the cells that draw R_ext = 0. -/
theorem claim_C3_amended (st : CAState) (rh ra re : Grid16)
    (hre : ValidDraw re) :
    ((∀ i j k, st.P_ext i j k = 10000) →
      ∀ i j k, (step st rh ra re).cld i j k = 0) ∧
    ((∀ i j k, st.P_ext i j k = 0) → (∀ i j k, st.cld i j k = 1) →
      BinaryGrid st.act →
      ∀ i j k, ((step st rh ra re).cld i j k = 1 ↔ re i j k ≠ 0)) := by
  constructor
  · intro hP i j k
    rw [show (step st rh ra re).cld i j k =
      (cloud_growth st).cld i j k &&& b2n (decide (st.P_ext i j k < re i j k)) from rfl,
      hP i j k]
    have hnot : ¬ (10000 < re i j k) := not_lt.mpr (hre i j k).2
    simp [b2n, hnot]
  · intro hP hC ba i j k
    have hone : (cloud_growth st).cld i j k = 1 := by
      rw [cloud_growth_cld, lor_eq_one_iff (Or.inr (hC i j k)) (ba i j k)]
      exact Or.inl (hC i j k)
    rw [show (step st rh ra re).cld i j k =
      (cloud_growth st).cld i j k &&& b2n (decide (st.P_ext i j k < re i j k)) from rfl,
      land_b2n_eq_one_iff _ (Or.inr hone), hP i j k]
    have h0 : 0 ≤ re i j k := (hre i j k).1
    simp [hone]
    omega

/-- A 1×1×1 state with a cloud cell and extinction probability 0. -/
def c3bState : CAState :=
  { width := 1
    depth := 1
    height := 1
    hum := fun _ _ _ => 0
    act := fun _ _ _ => 0
    cld := fun _ _ _ => 1
    P_hum := fun _ _ _ => 0
    P_act := fun _ _ _ => 0
    P_ext := fun _ _ _ => 0 }

/-- Witness for the amended C3: with P_ext = 10000 the cloud cell of
`c3State` is cleared; with P_ext = 0 the cloud cell of `c3bState` survives a
non-zero draw. -/
theorem claim_C3_amended_witness :
    (step c3State draw5000 draw5000 draw5000).cld 0 0 0 = 0 ∧
    ((step c3bState draw5000 draw5000 draw5000).cld 0 0 0 = 1 ↔
      draw5000 0 0 0 ≠ 0) :=
  ⟨(claim_C3_amended c3State draw5000 draw5000 draw5000 draw5000_valid).1
      (fun _ _ _ => rfl) 0 0 0,
   (claim_C3_amended c3bState draw5000 draw5000 draw5000 draw5000_valid).2
      (fun _ _ _ => rfl) (fun _ _ _ => rfl) (fun _ _ _ => Or.inl rfl) 0 0 0⟩

/-- C4: after any `initElliptic` call, P_hum equals the clamped pHum at
every cell, independent of any mask; after two sequential calls P_hum equals
the second call's clamped value over the entire grid. -/
theorem claim_C4 (st : CAState)
    (cx cy cz fx fy fz : ℚ) (ph pa pe : Int) (r ov : ℚ)
    (cx2 cy2 cz2 fx2 fy2 fz2 : ℚ) (ph2 pa2 pe2 : Int) (r2 ov2 : ℚ)
    (i j k : Nat) :
    (init_elliptic_probabilities st cx cy cz fx fy fz ph pa pe r ov).P_hum i j k
      = clampProb ph ∧
    (init_elliptic_probabilities
      (init_elliptic_probabilities st cx cy cz fx fy fz ph pa pe r ov)
      cx2 cy2 cz2 fx2 fy2 fz2 ph2 pa2 pe2 r2 ov2).P_hum i j k
      = clampProb ph2 :=
  ⟨rfl, rfl⟩

/-- A 5×2×2 engine state straight after construction. -/
def c5State : CAState := CAclouds3D_init 5 2 2

/-- C5: evaluation of the centre clamps at the failing input.  On the 5×2×2
grid the source leaves c_y = 3 and c_z = 3 untouched because its upper-range
tests compare against `width` (5) instead of `depth` and `height` (2), so
the clamped centre lies outside [0, depth−1] = [0, height−1] = [0, 1],
contradicting the claim (and the source's own docstring and diagnostics). -/
theorem claim_C5_bug :
    c5State.width = 5 ∧ c5State.depth = 2 ∧ c5State.height = 2 ∧
    clamp_c_y c5State 3 = 3 ∧ (c5State.depth : ℚ) - 1 < clamp_c_y c5State 3 ∧
    clamp_c_z c5State 3 = 3 ∧ (c5State.height : ℚ) - 1 < clamp_c_z c5State 3 ∧
    clamp_c_x c5State 7 = (c5State.width : ℚ) - 1 := by
  refine ⟨rfl, rfl, rfl, ?_, ?_, ?_, ?_, ?_⟩ <;>
    norm_num [clamp_c_x, clamp_c_y, clamp_c_z, c5State, CAclouds3D_init]

/-- C6 counterexample: construction with the non-positive dimension
width = 0 succeeds and yields a degenerate all-zero grid; no error path
exists in the constructor. -/
theorem claim_C6_cex :
    (CAclouds3D_init 0 1 1).width = 0 ∧
    (CAclouds3D_init 0 1 1).hum 0 0 0 = 0 ∧
    (CAclouds3D_init 0 1 1).act 0 0 0 = 0 ∧
    (CAclouds3D_init 0 1 1).cld 0 0 0 = 0 :=
  ⟨rfl, rfl, rfl, rfl⟩

/-- C6 amended: the constructor performs no dimension validation — given a
degenerate (zero) dimension it still builds a grid state with the requested
dimensions and all fields zero, raising no error. -/
theorem claim_C6_amended (w d h : Nat) (_hdeg : w = 0 ∨ d = 0 ∨ h = 0)
    (i j k : Nat) :
    (CAclouds3D_init w d h).width = w ∧ (CAclouds3D_init w d h).depth = d ∧
    (CAclouds3D_init w d h).height = h ∧
    (CAclouds3D_init w d h).hum i j k = 0 ∧
    (CAclouds3D_init w d h).act i j k = 0 ∧
    (CAclouds3D_init w d h).cld i j k = 0 :=
  ⟨rfl, rfl, rfl, rfl, rfl, rfl⟩

/-- Witness for the amended C6, at width = 0. -/
theorem claim_C6_amended_witness :
    (CAclouds3D_init 0 3 4).width = 0 ∧ (CAclouds3D_init 0 3 4).depth = 3 ∧
    (CAclouds3D_init 0 3 4).height = 4 ∧
    (CAclouds3D_init 0 3 4).hum 0 0 0 = 0 ∧
    (CAclouds3D_init 0 3 4).act 0 0 0 = 0 ∧
    (CAclouds3D_init 0 3 4).cld 0 0 0 = 0 :=
  claim_C6_amended 0 3 4 (Or.inl rfl) 0 0 0

/-- The probability grids `P_act` and `P_ext` are carried through `simulate`
unchanged. -/
theorem simulate_P_frame :
    ∀ (rs : List (Grid16 × Grid16 × Grid16)) (st : CAState) (i j k : Nat),
      (simulate st rs).P_act i j k = st.P_act i j k ∧
      (simulate st rs).P_ext i j k = st.P_ext i j k
  | [], _, _, _, _ => ⟨rfl, rfl⟩
  | r :: rs, st, i, j, k => simulate_P_frame rs (step st r.1 r.2.1 r.2.2) i j k

/-- C7: `initElliptic` writes P_act only where the inner mask holds and
P_ext only where the outer mask holds, cells outside the respective mask
retaining their prior value; and neither `step()` nor `simulate` modifies
P_act or P_ext. -/
theorem claim_C7 (st : CAState)
    (cx cy cz fx fy fz : ℚ) (ph pa pe : Int) (r ov : ℚ) (i j k : Nat) :
    ((init_elliptic_probabilities st cx cy cz fx fy fz ph pa pe r ov).P_act i j k
      = if sel_inner st cx cy cz fx fy fz r ov i j k then clampProb pa
        else st.P_act i j k) ∧
    ((init_elliptic_probabilities st cx cy cz fx fy fz ph pa pe r ov).P_ext i j k
      = if sel_outer st cx cy cz fx fy fz r ov i j k then clampProb pe
        else st.P_ext i j k) ∧
    (∀ rh ra re, (step st rh ra re).P_act i j k = st.P_act i j k ∧
      (step st rh ra re).P_ext i j k = st.P_ext i j k) ∧
    (∀ rs, (simulate st rs).P_act i j k = st.P_act i j k ∧
      (simulate st rs).P_ext i j k = st.P_ext i j k) :=
  ⟨rfl, rfl, fun _ _ _ => ⟨rfl, rfl⟩, fun rs => simulate_P_frame rs st i j k⟩

/-! ## Position extraction -/

theorem mem_allTriples (w d h : Nat) (t : Nat × Nat × Nat) :
    t ∈ allTriples w d h ↔ t.1 < w ∧ t.2.1 < d ∧ t.2.2 < h := by
  obtain ⟨i, j, k⟩ := t
  unfold allTriples
  simp only [List.mem_flatMap, List.mem_range, List.mem_map]
  constructor
  · rintro ⟨a, ha, b, hb, c, hc, hco⟩
    obtain ⟨rfl, rfl, rfl⟩ : a = i ∧ b = j ∧ c = k := by
      injection hco with h1 h2
      injection h2 with h2 h3
      exact ⟨h1, h2, h3⟩
    exact ⟨ha, hb, hc⟩
  · rintro ⟨hi, hj, hk⟩
    exact ⟨i, hi, j, hj, k, hk, rfl⟩

theorem filterMap_if_eq_filter {α : Type} (p : α → Prop) [DecidablePred p] :
    ∀ l : List α,
      l.filterMap (fun t => if p t then some t else none)
        = l.filter (fun t => decide (p t))
  | [] => rfl
  | t :: l => by
    by_cases hp : p t <;>
      simp [List.filterMap_cons, List.filter_cons, hp, filterMap_if_eq_filter p l]

theorem get_cloud_positions_eq_filter (st : CAState) :
    get_cloud_positions st
      = (allTriples st.width st.depth st.height).filter
          (fun t => decide (st.cld t.1 t.2.1 t.2.2 = 1)) := by
  show (allTriples st.width st.depth st.height).filterMap
      (fun t => if st.cld t.1 t.2.1 t.2.2 = 1 then some t else none) = _
  exact filterMap_if_eq_filter _ _

theorem mem_get_cloud_positions (st : CAState) (x y z : Nat) :
    (x, y, z) ∈ get_cloud_positions st ↔
      x < st.width ∧ y < st.depth ∧ z < st.height ∧ st.cld x y z = 1 := by
  rw [get_cloud_positions_eq_filter, List.mem_filter, mem_allTriples]
  simp [and_assoc]

/-- The 2×2×2 cloud grid of the spec's extraction test: cloud cells exactly
at (0,0,0) and (1,1,1). -/
def cube2State : CAState :=
  { width := 2
    depth := 2
    height := 2
    hum := fun _ _ _ => 0
    act := fun _ _ _ => 0
    cld := fun i j k =>
      if (i = 0 ∧ j = 0 ∧ k = 0) ∨ (i = 1 ∧ j = 1 ∧ k = 1) then 1 else 0
    P_hum := fun _ _ _ => 0
    P_act := fun _ _ _ => 0
    P_ext := fun _ _ _ => 0 }

/-- C8: `getCloudPositions` returns exactly the (x, y, z) triples of the
cells with C = 1, in the stable row-major flatten order of the construction
axes; it is empty when no cell is set; and on the 2×2×2 grid with cells
(0,0,0) and (1,1,1) it returns exactly those two triples. -/
theorem claim_C8 (st : CAState) (x y z : Nat) :
    ((x, y, z) ∈ get_cloud_positions st ↔
      x < st.width ∧ y < st.depth ∧ z < st.height ∧ st.cld x y z = 1) ∧
    (get_cloud_positions st
      = (allTriples st.width st.depth st.height).filter
          (fun t => decide (st.cld t.1 t.2.1 t.2.2 = 1))) ∧
    ((∀ i j k, i < st.width → j < st.depth → k < st.height →
        st.cld i j k ≠ 1) → get_cloud_positions st = []) ∧
    get_cloud_positions cube2State = [(0, 0, 0), (1, 1, 1)] := by
  refine ⟨mem_get_cloud_positions st x y z, get_cloud_positions_eq_filter st,
    fun hnone => ?_, by decide⟩
  rw [get_cloud_positions_eq_filter]
  rw [List.filter_eq_nil_iff]
  intro t ht
  rw [mem_allTriples] at ht
  simpa using hnone t.1 t.2.1 t.2.2 ht.1 ht.2.1 ht.2.2

/-- Witness for C8: the membership equivalence at (0,0,0) on the 2×2×2
grid, the empty result on a fresh 2×2×2 grid, and the concrete extraction
result. -/
theorem claim_C8_witness :
    ((0, 0, 0) ∈ get_cloud_positions cube2State ↔
      0 < cube2State.width ∧ 0 < cube2State.depth ∧ 0 < cube2State.height ∧
        cube2State.cld 0 0 0 = 1) ∧
    get_cloud_positions (CAclouds3D_init 2 2 2) = [] ∧
    get_cloud_positions cube2State = [(0, 0, 0), (1, 1, 1)] :=
  ⟨(claim_C8 cube2State 0 0 0).1,
   (claim_C8 (CAclouds3D_init 2 2 2) 0 0 0).2.2.1
     (fun _ _ _ _ _ _ => Nat.zero_ne_one),
   (claim_C8 cube2State 0 0 0).2.2.2⟩

/-! ## Reachable states and invariants -/

/-- States reachable by construction followed by any sequence of
`init_elliptic_probabilities` and `step` calls, with arbitrary arguments and
random draws. -/
inductive Reachable : CAState → Prop where
  | construct (w d h : Nat) : Reachable (CAclouds3D_init w d h)
  | seed (st : CAState) (cx cy cz fx fy fz : ℚ) (ph pa pe : Int) (r ov : ℚ) :
      Reachable st →
      Reachable (init_elliptic_probabilities st cx cy cz fx fy fz ph pa pe r ov)
  | advance (st : CAState) (rh ra re : Grid16) :
      Reachable st → Reachable (step st rh ra re)

/-- C9: in every state reachable by construction, seeding and stepping
(for any random draws), every cell of H, A and C is exactly 0 or 1. -/
theorem claim_C9 (st : CAState) (hr : Reachable st) : BinaryState st := by
  induction hr with
  | construct w d h =>
    exact ⟨fun _ _ _ => Or.inl rfl, fun _ _ _ => Or.inl rfl,
      fun _ _ _ => Or.inl rfl⟩
  | seed st cx cy cz fx fy fz ph pa pe r ov _ ih => exact ih
  | advance st rh ra re _ ih => exact step_preserves_binary st rh ra re ih

/-- Witness for C9 at a state reached by one seeding call and one step. -/
theorem claim_C9_witness :
    ((step (init_elliptic_probabilities (CAclouds3D_init 2 2 2)
        1 1 1 1 1 1 5000 5000 5000 1 1) draw5000 draw5000 draw5000).hum 1 1 1 = 0 ∨
     (step (init_elliptic_probabilities (CAclouds3D_init 2 2 2)
        1 1 1 1 1 1 5000 5000 5000 1 1) draw5000 draw5000 draw5000).hum 1 1 1 = 1) ∧
    ((step (init_elliptic_probabilities (CAclouds3D_init 2 2 2)
        1 1 1 1 1 1 5000 5000 5000 1 1) draw5000 draw5000 draw5000).act 1 1 1 = 0 ∨
     (step (init_elliptic_probabilities (CAclouds3D_init 2 2 2)
        1 1 1 1 1 1 5000 5000 5000 1 1) draw5000 draw5000 draw5000).act 1 1 1 = 1) ∧
    ((step (init_elliptic_probabilities (CAclouds3D_init 2 2 2)
        1 1 1 1 1 1 5000 5000 5000 1 1) draw5000 draw5000 draw5000).cld 1 1 1 = 0 ∨
     (step (init_elliptic_probabilities (CAclouds3D_init 2 2 2)
        1 1 1 1 1 1 5000 5000 5000 1 1) draw5000 draw5000 draw5000).cld 1 1 1 = 1) :=
  let h := claim_C9 _
    (Reachable.advance _ draw5000 draw5000 draw5000
      (Reachable.seed _ 1 1 1 1 1 1 5000 5000 5000 1 1
        (Reachable.construct 2 2 2)))
  ⟨h.1 1 1 1, h.2.1 1 1 1, h.2.2 1 1 1⟩

/-! ## Humidity non-increase -/

/-- Number of true humidity cells, counted over the grid in flatten order. -/
def humCount (st : CAState) : Nat :=
  (allTriples st.width st.depth st.height).countP
    (fun t => decide (st.hum t.1 t.2.1 t.2.2 = 1))

/-- One step with zero humidity probability can only shrink H. -/
theorem step_hum_subset (st : CAState) (hb : BinaryState st)
    (hP : ∀ i j k, st.P_hum i j k = 0) (rh ra re : Grid16)
    (hrh : ValidDraw rh) (i j k : Nat) :
    (step st rh ra re).hum i j k = 1 → st.hum i j k = 1 := by
  intro h1
  rw [show (step st rh ra re).hum i j k =
      (cloud_growth st).hum i j k ||| b2n (decide (rh i j k < st.P_hum i j k))
      from rfl, hP i j k] at h1
  have hnot : ¬ (rh i j k < 0) := not_lt.mpr (hrh i j k).1
  rw [decide_eq_false hnot, show b2n false = 0 from rfl, Nat.or_zero,
    cloud_growth_hum, land_bnot8_eq (hb.1 i j k) (hb.2.1 i j k)] at h1
  split at h1
  · exact absurd h1 (by omega)
  · exact h1

theorem humCount_step_le (st : CAState) (hb : BinaryState st)
    (hP : ∀ i j k, st.P_hum i j k = 0) (rh ra re : Grid16)
    (hrh : ValidDraw rh) :
    humCount (step st rh ra re) ≤ humCount st := by
  unfold humCount
  have hdim : (step st rh ra re).width = st.width ∧
      (step st rh ra re).depth = st.depth ∧
      (step st rh ra re).height = st.height := ⟨rfl, rfl, rfl⟩
  rw [hdim.1, hdim.2.1, hdim.2.2]
  refine List.countP_mono_left fun t _ h => ?_
  simp only [decide_eq_true_eq] at h ⊢
  exact step_hum_subset st hb hP rh ra re hrh t.1 t.2.1 t.2.2 h

theorem humCount_simulate_le :
    ∀ (rs : List (Grid16 × Grid16 × Grid16)) (st : CAState),
      BinaryState st → (∀ i j k, st.P_hum i j k = 0) →
      (∀ r ∈ rs, ValidDraw r.1) → humCount (simulate st rs) ≤ humCount st
  | [], _, _, _, _ => le_refl _
  | r :: rs, st, hb, hP, hv => by
    have h1 : humCount (simulate (step st r.1 r.2.1 r.2.2) rs)
        ≤ humCount (step st r.1 r.2.1 r.2.2) :=
      humCount_simulate_le rs (step st r.1 r.2.1 r.2.2)
        (step_preserves_binary st r.1 r.2.1 r.2.2 hb) hP
        (fun q hq => hv q (List.mem_cons_of_mem r hq))
    exact le_trans h1
      (humCount_step_le st hb hP r.1 r.2.1 r.2.2 (hv r (List.mem_cons_self r rs)))

/-- C10: with all probability grids zero, the humidity field after a step is
a subset of the humidity field before it, and the count of true cells in H
never increases across repeated `step()` calls. -/
theorem claim_C10 (st : CAState) (hb : BinaryState st)
    (hP : ∀ i j k, st.P_hum i j k = 0 ∧ st.P_act i j k = 0 ∧
      st.P_ext i j k = 0)
    (rh ra re : Grid16) (hrh : ValidDraw rh) :
    (∀ i j k, (step st rh ra re).hum i j k = 1 → st.hum i j k = 1) ∧
    humCount (step st rh ra re) ≤ humCount st ∧
    (∀ rs : List (Grid16 × Grid16 × Grid16), (∀ r ∈ rs, ValidDraw r.1) →
      humCount (simulate st rs) ≤ humCount st) :=
  ⟨fun i j k => step_hum_subset st hb (fun a b c => (hP a b c).1) rh ra re hrh i j k,
   humCount_step_le st hb (fun a b c => (hP a b c).1) rh ra re hrh,
   fun rs hv => humCount_simulate_le rs st hb (fun a b c => (hP a b c).1) hv⟩

/-- Witness for C10 at `w1State` with uniform draws of 5000 and the
one-element draw list. -/
theorem claim_C10_witness :
    ((step w1State draw5000 draw5000 draw5000).hum 0 0 0 = 1 →
      w1State.hum 0 0 0 = 1) ∧
    humCount (step w1State draw5000 draw5000 draw5000) ≤ humCount w1State ∧
    humCount (simulate w1State [(draw5000, draw5000, draw5000)])
      ≤ humCount w1State :=
  let h := claim_C10 w1State w1State_binary (fun _ _ _ => ⟨rfl, rfl, rfl⟩)
    draw5000 draw5000 draw5000 draw5000_valid
  ⟨h.1 0 0 0, h.2.1,
   h.2.2 [(draw5000, draw5000, draw5000)] (fun r hr => by
     rw [List.mem_singleton] at hr
     rw [hr]
     exact draw5000_valid)⟩
